import Mathlib

/-!
Verification of the ESP-NOW reliable data-transfer driver
(`espnow_driver.c` / `espnow_driver.h`).

The shallow embedding below translates the driver source into Lean:
machine integers become `Nat` with explicit truncation (`% 256`,
`% 65536`) exactly where the C types force it, byte buffers become
`List Nat`, the asynchronous link layer becomes an explicit environment
(a function from attempt index to the attempt outcome), and the
process-wide mutable globals become an explicit `DriverState` value
threaded through the operations.
-/

namespace Espnow

/-- Result codes used by the driver (the subset of `esp_err_t` values the
driver source actually produces). -/
inductive EspErr where
  | OK
  | FAIL
  | ERR_TIMEOUT
  | ERR_INVALID_STATE
  | ERR_INVALID_ARG
  | ERR_INVALID_SIZE
  | ERR_NO_MEM
deriving DecidableEq

/-- Send state machine states, from `espnow_send_state_t`. -/
inductive SendState where
  | IDLE
  | SENDING
  | WAIT_ACK
  | SUCCESS
  | FAILED
deriving DecidableEq

/-- `ESPNOW_MAX_PAYLOAD_SIZE` from the header: maximum payload bytes per
fragment. -/
def ESPNOW_MAX_PAYLOAD_SIZE : Nat := 200

/-! ## CRC16

`espnow_crc16` in the source delegates to the external library routine
`esp_crc16_le(0xFFFF, data, len)`, which is not part of this repository.
Modelled from the spec: the spec only requires a deterministic pure
16-bit checksum ("Any standard 16-bit CRC with a fixed polynomial and
initial value is acceptable"); we model the standard reflected CRC-16
computed by that library routine (polynomial 0x8408, initial value
complemented on entry and exit). -/

/-- One bit-step of the reflected CRC-16 with polynomial 0x8408. -/
def crc16_round (crc : Nat) : Nat :=
  if crc % 2 = 1 then (crc / 2) ^^^ 0x8408 else crc / 2

/-- Fold one data byte into the CRC (eight bit-steps). -/
def crc16_byte (crc b : Nat) : Nat :=
  (List.range 8).foldl (fun c _ => crc16_round c) (crc ^^^ b)

/-- Modelled from the spec: the external `esp_crc16_le` routine
(complement the incoming CRC, fold each byte, complement the result). -/
def esp_crc16_le (crc0 : Nat) (data : List Nat) : Nat :=
  (data.foldl crc16_byte ((crc0 ^^^ 0xFFFF) % 65536)) ^^^ 0xFFFF

/-- `espnow_crc16` from the source: `esp_crc16_le(0xFFFF, data, len)`. -/
def espnow_crc16 (data : List Nat) : Nat :=
  esp_crc16_le 0xFFFF data

/-! ## Packet model (`espnow_packet_header_t`, `espnow_packet_t`) -/

/-- The packed 9-byte packet header. Field widths of the C struct:
`node_id` and `total_chunks` and `chunk_index` are `uint8_t`;
`packet_sequence`, `payload_length` and `crc16` are `uint16_t`. -/
structure Header where
  node_id : Nat
  packet_sequence : Nat
  total_chunks : Nat
  chunk_index : Nat
  payload_length : Nat
  crc16 : Nat
deriving DecidableEq, Inhabited

/-- A packet: header plus payload. The C struct holds a fixed 200-byte
payload buffer of which only the first `payload_length` bytes are
meaningful; we model exactly those meaningful bytes. -/
structure Packet where
  header : Header
  payload : List Nat
deriving DecidableEq, Inhabited

/-- The chunk count computed at the top of `fragment_data`:
`uint8_t total_chunks = (len + ESPNOW_MAX_PAYLOAD_SIZE - 1) / ESPNOW_MAX_PAYLOAD_SIZE;`
The division is performed in `size_t` and then truncated by the
assignment into the `uint8_t` local, hence the `% 256`. -/
def total_chunks_of (len : Nat) : Nat :=
  ((len + ESPNOW_MAX_PAYLOAD_SIZE - 1) / ESPNOW_MAX_PAYLOAD_SIZE) % 256

/-- `fragment_data` from the source: split `data` into chunks of at most
200 bytes, stamping each with the shared sequence number, the chunk
count, its index, its length and the payload CRC. Returns the empty
list where the C function returns 0 (its caller treats 0 as failure). -/
def fragment_data (node_id : Nat) (data : List Nat) (sequence_num : Nat) : List Packet :=
  let total_chunks := total_chunks_of data.length
  if 32 < total_chunks then []
  else
    (List.range total_chunks).map (fun i =>
      let offset := i * ESPNOW_MAX_PAYLOAD_SIZE
      let chunk_size :=
        if data.length < offset + ESPNOW_MAX_PAYLOAD_SIZE then data.length - offset
        else ESPNOW_MAX_PAYLOAD_SIZE
      let payload := (data.drop offset).take chunk_size
      { header :=
          { node_id := node_id % 256
            packet_sequence := sequence_num % 65536
            total_chunks := total_chunks
            chunk_index := i
            payload_length := chunk_size
            crc16 := espnow_crc16 payload }
        payload := payload })

/-- Number of fragments produced by `fragment_data`. -/
theorem fragment_data_length (node_id : Nat) (data : List Nat) (s : Nat) :
    (fragment_data node_id data s).length =
      if 32 < total_chunks_of data.length then 0 else total_chunks_of data.length := by
  unfold fragment_data
  split <;> rename_i h <;> simp [h]

/-- The fragment at index `i`, spelled out. -/
theorem fragment_data_getD (node_id : Nat) (data : List Nat) (s i : Nat)
    (h32 : ¬ 32 < total_chunks_of data.length)
    (hi : i < total_chunks_of data.length) :
    (fragment_data node_id data s).getD i default =
      { header :=
          { node_id := node_id % 256
            packet_sequence := s % 65536
            total_chunks := total_chunks_of data.length
            chunk_index := i
            payload_length := if data.length < i * 200 + 200 then data.length - i * 200 else 200
            crc16 := espnow_crc16 ((data.drop (i * 200)).take
              (if data.length < i * 200 + 200 then data.length - i * 200 else 200)) }
        payload := (data.drop (i * 200)).take
          (if data.length < i * 200 + 200 then data.length - i * 200 else 200) } := by
  unfold fragment_data
  rw [if_neg h32, List.getD_eq_getElem?_getD,
    List.getElem?_eq_getElem (by simpa using hi)]
  simp [ESPNOW_MAX_PAYLOAD_SIZE]

/-- C1: the fragmentation bound is defeated by integer truncation.
The claim states that fragmentation fails (producing no fragments)
on every buffer longer than 6400 bytes.  The code computes
ceil(len/200) in `size_t` but stores it into a `uint8_t`, so a
51201-byte buffer (ceil = 257, truncated to 1) is accepted:
`fragment_data` succeeds and produces exactly one fragment carrying
200 bytes, silently dropping the remaining 51001 bytes. -/
theorem C1_fragment_bound_truncation :
    6400 < 51201
    ∧ (fragment_data 1 (List.replicate 51201 0) 7).length = 1
    ∧ ((fragment_data 1 (List.replicate 51201 0) 7).getD 0 default).header.payload_length = 200 := by
  have hlen : (List.replicate 51201 (0 : Nat)).length = 51201 := List.length_replicate 51201 0
  have htc : total_chunks_of (List.replicate 51201 (0 : Nat)).length = 1 := by
    rw [hlen]; norm_num [total_chunks_of, ESPNOW_MAX_PAYLOAD_SIZE]
  refine ⟨by norm_num, ?_, ?_⟩
  · rw [fragment_data_length, htc]
    norm_num
  · rw [fragment_data_getD 1 _ 7 0 (by rw [htc]; norm_num) (by rw [htc]; norm_num)]
    rw [hlen]
    norm_num

/-! ## Send state machine (`send_packet_with_retry`)

The asynchronous link layer is modelled by a function from the attempt
index (the value of the `retry` counter when `esp_now_send` is called)
to what that attempt observed:
* `submitError`: `esp_now_send` itself returned an error;
* `cbSuccess`: submission succeeded and the send callback reported
  `ESP_NOW_SEND_SUCCESS` (the callback sets the context state to
  `SUCCESS` and raises the done and success event bits);
* `cbFail`: submission succeeded and the send callback reported failure
  (the callback sets the context state to `FAILED` and raises only the
  done bit);
* `timeout`: submission succeeded but no callback arrived within
  `send_timeout_ms`, so the event-group wait timed out. -/
inductive AttemptOutcome where
  | submitError
  | cbSuccess
  | cbFail
  | timeout
deriving DecidableEq

/-- Observable result of one `send_packet_with_retry` call: the returned
error code, the send-context state at the moment of return, the number
of `esp_now_send` attempts made and the list of backoff delays (in
milliseconds) inserted after failed attempts, in order. -/
structure RetryRun where
  err : EspErr
  state : SendState
  attempts : Nat
  delays : List Nat
deriving DecidableEq

/-- The `while (retry <= s_config.max_retries)` loop of
`send_packet_with_retry`.  Each iteration sets the context state to
`SENDING`, performs one attempt and, on failure, increments `retry` and
delays `10 * 2 ^ retry` milliseconds (`pdMS_TO_TICKS(10 * (1 << retry))`
after the increment).  When the loop guard fails the function returns
`ESP_ERR_TIMEOUT`; `st` is the context state left by the last
iteration.

Fidelity note.  In the source `retry` is a `uint8_t` and `max_retries`
is the `uint8_t` config field.  This total recursion keeps the counter
as an unbounded `Nat`, which coincides with the C loop exactly when
`max_retries ≤ 254`: the counter then reaches `max_retries + 1 ≤ 255`
without ever wrapping, and `retry_u8_loop_agrees` below proves this
model equal to the wrap-faithful model `retry_u8_loop` on that domain.
At `max_retries = 255` the C counter wraps 255 to 0, the guard never
fails and the loop never exits — behaviour only `retry_u8_loop` can
express — so every theorem about this function carries a
`max_retries ≤ 254` bound.  Likewise the recorded delay value
`10 * 2 ^ retry` equals the C expression `10 * (1 << retry)` (computed
in a signed 32-bit `int`) only for `retry ≤ 27`; from `retry = 28` the
C expression overflows `int` (undefined behaviour), so theorems about
the delay schedule are bounded by `max_retries ≤ 26`. -/
def retry_loop (max_retries : Nat) (outs : Nat → AttemptOutcome)
    (retry : Nat) (st : SendState) : RetryRun :=
  if retry ≤ max_retries then
    match outs retry with
    | .cbSuccess => { err := .OK, state := .SUCCESS, attempts := 1, delays := [] }
    | .submitError =>
      let r := retry_loop max_retries outs (retry + 1) .SENDING
      { err := r.err, state := r.state, attempts := r.attempts + 1,
        delays := 10 * 2 ^ (retry + 1) :: r.delays }
    | .cbFail =>
      let r := retry_loop max_retries outs (retry + 1) .FAILED
      { err := r.err, state := r.state, attempts := r.attempts + 1,
        delays := 10 * 2 ^ (retry + 1) :: r.delays }
    | .timeout =>
      let r := retry_loop max_retries outs (retry + 1) .SENDING
      { err := r.err, state := r.state, attempts := r.attempts + 1,
        delays := 10 * 2 ^ (retry + 1) :: r.delays }
  else { err := .ERR_TIMEOUT, state := st, attempts := 0, delays := [] }
termination_by max_retries + 1 - retry
decreasing_by all_goals omega

/-- `send_packet_with_retry` from the source: run the retry loop from
`retry = 0`.  The loop body always executes at least once and first
sets the context state to `SENDING`, so the initial state argument is
immaterial. -/
def send_packet_with_retry (max_retries : Nat) (outs : Nat → AttemptOutcome) : RetryRun :=
  retry_loop max_retries outs 0 .SENDING

/-- Wrap-faithful model of the same loop.  `retry` is kept as the
`uint8_t` of the source: the increment is `(retry + 1) % 256` and the
guard compares against the `uint8_t` config value `max_retries % 256`,
so at `max_retries % 256 = 255` the guard never fails and the loop
never exits, exactly as in C.  Since such a loop is not a total
function, the recursion carries explicit `fuel`: a `none` result means
the loop has not exited within `fuel` iterations (in particular, a
non-terminating execution is `none` for every fuel).  `attempt` is a
ghost counter numbering the `esp_now_send` calls, used to index the
outcome environment; it equals `retry` as long as no wrap has
occurred.  The recorded delay `10 * 2 ^ retry` models the C expression
`10 * (1 << retry)` only for `retry ≤ 27` (beyond that the C
expression overflows signed `int`, undefined behaviour); no theorem
reads delay values outside that range. -/
def retry_u8_loop (max_retries : Nat) (outs : Nat → AttemptOutcome) :
    Nat → Nat → Nat → SendState → Option RetryRun
  | 0, _, _, _ => none
  | fuel + 1, retry, attempt, st =>
    if retry ≤ max_retries % 256 then
      match outs attempt with
      | .cbSuccess => some { err := .OK, state := .SUCCESS, attempts := 1, delays := [] }
      | .submitError =>
        (retry_u8_loop max_retries outs fuel ((retry + 1) % 256) (attempt + 1) .SENDING).map
          (fun r => { err := r.err, state := r.state, attempts := r.attempts + 1,
                      delays := 10 * 2 ^ ((retry + 1) % 256) :: r.delays })
      | .cbFail =>
        (retry_u8_loop max_retries outs fuel ((retry + 1) % 256) (attempt + 1) .FAILED).map
          (fun r => { err := r.err, state := r.state, attempts := r.attempts + 1,
                      delays := 10 * 2 ^ ((retry + 1) % 256) :: r.delays })
      | .timeout =>
        (retry_u8_loop max_retries outs fuel ((retry + 1) % 256) (attempt + 1) .SENDING).map
          (fun r => { err := r.err, state := r.state, attempts := r.attempts + 1,
                      delays := 10 * 2 ^ ((retry + 1) % 256) :: r.delays })
    else some { err := .ERR_TIMEOUT, state := st, attempts := 0, delays := [] }

/-- `send_packet_with_retry` in the wrap-faithful model: run the
`uint8_t` loop from `retry = 0` with the given iteration budget. -/
def send_packet_with_retry_u8 (max_retries : Nat) (outs : Nat → AttemptOutcome)
    (fuel : Nat) : Option RetryRun :=
  retry_u8_loop max_retries outs fuel 0 0 .SENDING

/-- For `max_retries ≤ 254` no wrap can occur before the loop exits,
and the wrap-faithful model agrees with the total model: starting at
`retry = attempt = k` with `max_retries = k + d` and at least `d + 2`
iterations of fuel, the `uint8_t` loop returns exactly the total
model's result. -/
theorem retry_u8_loop_agrees (m : Nat) (hm : m ≤ 254) (outs : Nat → AttemptOutcome) :
    ∀ d fuel k st, m = k + d → d + 2 ≤ fuel →
      retry_u8_loop m outs fuel k k st = some (retry_loop m outs k st) := by
  intro d
  induction d with
  | zero =>
    intro fuel k st hk hfuel
    obtain rfl : k = m := by omega
    cases fuel with
    | zero => omega
    | succ f =>
      cases f with
      | zero => omega
      | succ f' =>
        rw [retry_u8_loop]
        rw [if_pos (by omega : k ≤ k % 256)]
        rw [retry_loop, if_pos (le_refl k)]
        have hmod : (k + 1) % 256 = k + 1 := Nat.mod_eq_of_lt (by omega)
        cases ho : outs k with
        | cbSuccess => rfl
        | submitError =>
          rw [retry_u8_loop, hmod, if_neg (by omega : ¬ k + 1 ≤ k % 256)]
          rw [retry_loop, if_neg (by omega : ¬ k + 1 ≤ k)]
          rfl
        | cbFail =>
          have hinner : retry_u8_loop k outs (f' + 1) ((k + 1) % 256) (k + 1) .FAILED =
              some { err := .ERR_TIMEOUT, state := .FAILED, attempts := 0, delays := [] } := by
            rw [retry_u8_loop, hmod, if_neg (by omega : ¬ k + 1 ≤ k % 256)]
          have hinner2 : retry_loop k outs (k + 1) SendState.FAILED =
              { err := .ERR_TIMEOUT, state := .FAILED, attempts := 0, delays := [] } := by
            rw [retry_loop, if_neg (by omega : ¬ k + 1 ≤ k)]
          rw [hinner, hinner2, hmod]
          rfl
        | timeout =>
          rw [retry_u8_loop, hmod, if_neg (by omega : ¬ k + 1 ≤ k % 256)]
          rw [retry_loop, if_neg (by omega : ¬ k + 1 ≤ k)]
          rfl
  | succ d ih =>
    intro fuel k st hk hfuel
    cases fuel with
    | zero => omega
    | succ f =>
      rw [retry_u8_loop]
      rw [if_pos (by omega : k ≤ m % 256)]
      rw [retry_loop, if_pos (by omega : k ≤ m)]
      have hmod : (k + 1) % 256 = k + 1 := Nat.mod_eq_of_lt (by omega)
      cases ho : outs k with
      | cbSuccess => rfl
      | submitError =>
        rw [hmod, ih f (k + 1) .SENDING (by omega) (by omega)]
        rfl
      | cbFail =>
        rw [hmod, ih f (k + 1) .FAILED (by omega) (by omega)]
        rfl
      | timeout =>
        rw [hmod, ih f (k + 1) .SENDING (by omega) (by omega)]
        rfl

/-- At `max_retries = 255` with no successful attempt, the `uint8_t`
loop never exits: the guard `retry <= 255` holds for every wrapped
counter value, so for every fuel the wrap-faithful model reports the
call still running. -/
theorem retry_u8_loop_wrap_none (outs : Nat → AttemptOutcome)
    (h : ∀ i, outs i ≠ .cbSuccess) :
    ∀ fuel retry attempt st, retry ≤ 255 →
      retry_u8_loop 255 outs fuel retry attempt st = none := by
  intro fuel
  induction fuel with
  | zero => intro retry attempt st _; rfl
  | succ f ih =>
    intro retry attempt st hr
    rw [retry_u8_loop, if_pos (by omega : retry ≤ 255 % 256)]
    cases ho : outs attempt with
    | cbSuccess => exact absurd ho (h attempt)
    | submitError =>
      rw [ih ((retry + 1) % 256) (attempt + 1) .SENDING (by omega)]
      rfl
    | cbFail =>
      rw [ih ((retry + 1) % 256) (attempt + 1) .FAILED (by omega)]
      rfl
    | timeout =>
      rw [ih ((retry + 1) % 256) (attempt + 1) .SENDING (by omega)]
      rfl

/-- Exhaustion behaviour of the retry loop when no attempt succeeds:
the returned error is always `ERR_TIMEOUT`, and the state at return is
`FAILED` exactly when the last attempt was an asynchronous completion
failure (only the send callback ever writes `FAILED` inside the loop). -/
theorem retry_loop_exhaust (m : Nat) (outs : Nat → AttemptOutcome)
    (h : ∀ i, outs i ≠ .cbSuccess) :
    ∀ d k st, m = k + d →
      (retry_loop m outs k st).err = .ERR_TIMEOUT
      ∧ (retry_loop m outs k st).state =
          (if outs m = .cbFail then .FAILED else .SENDING) := by
  intro d
  induction d with
  | zero =>
    intro k st hk
    obtain rfl : k = m := by omega
    rw [retry_loop]
    simp only [le_refl, if_pos]
    cases ho : outs k with
    | cbSuccess => exact absurd ho (h k)
    | submitError =>
      rw [retry_loop]
      simp [ho]
    | cbFail =>
      simp only [ho]
      rw [retry_loop, if_neg (by omega : ¬ (k + 1 ≤ k))]
      simp [ho]
    | timeout =>
      rw [retry_loop]
      simp [ho]
  | succ d ih =>
    intro k st hk
    rw [retry_loop]
    have hle : k ≤ m := by omega
    simp only [hle, if_pos]
    have hrec : m = (k + 1) + d := by omega
    cases ho : outs k with
    | cbSuccess => exact absurd ho (h k)
    | submitError => simpa using ih (k + 1) .SENDING hrec
    | cbFail => simpa using ih (k + 1) .FAILED hrec
    | timeout => simpa using ih (k + 1) .SENDING hrec

/-- C3 counterexample: the claim says a retry-exhausted per-fragment
send returns `LinkError` (an error distinct from `TimeoutError`) when
the last attempt ended in an asynchronous completion failure, and that
it transitions to `Failed` in every exhaustion case.  The code instead
returns `ESP_ERR_TIMEOUT` in every exhaustion case (single return at
the bottom of `send_packet_with_retry`), and after a final
completion-wait timeout the context state is still `SENDING` (only the
send callback writes `FAILED`). -/
theorem C3_counterexample :
    (send_packet_with_retry 0 (fun _ => .cbFail)).err = .ERR_TIMEOUT
    ∧ EspErr.ERR_TIMEOUT ≠ EspErr.FAIL
    ∧ (send_packet_with_retry 0 (fun _ => .timeout)).state = .SENDING
    ∧ SendState.SENDING ≠ SendState.FAILED := by
  refine ⟨?_, by decide, ?_, by decide⟩
  · rw [send_packet_with_retry, retry_loop]
    simp
    rw [retry_loop]
    simp
  · rw [send_packet_with_retry, retry_loop]
    simp
    rw [retry_loop]
    simp

/-- C3 (amended): for any configured `max_retries ≤ 254` (the
`uint8_t` retry counter wraps at 255, so at `max_retries = 255` the
loop never exits), when a per-fragment send exhausts its retries it
returns — also in the wrap-faithful `uint8_t` model — the error
`ESP_ERR_TIMEOUT` regardless of whether the last attempt ended in a
timeout, an immediate submission error or an asynchronous completion
failure; the send state at the moment of return is `FAILED` exactly
when the last attempt was an asynchronous completion failure and is
still `SENDING` otherwise (the enclosing send call later overwrites it
with `FAILED`). -/
theorem C3_retry_exhaustion_error (m : Nat) (outs : Nat → AttemptOutcome)
    (hm : m ≤ 254) (h : ∀ i, outs i ≠ .cbSuccess) :
    send_packet_with_retry_u8 m outs (m + 2) = some (send_packet_with_retry m outs)
    ∧ (send_packet_with_retry m outs).err = .ERR_TIMEOUT
    ∧ (send_packet_with_retry m outs).state =
        (if outs m = .cbFail then .FAILED else .SENDING) := by
  refine ⟨?_, retry_loop_exhaust m outs h m 0 .SENDING (by omega)⟩
  rw [send_packet_with_retry_u8, send_packet_with_retry]
  exact retry_u8_loop_agrees m hm outs m (m + 2) 0 .SENDING (by omega) (by omega)

/-- Witness for C3 (amended): two attempts (`max_retries = 1`) that both
time out exhaust the retries with `ERR_TIMEOUT` and leave the state
`SENDING`. -/
theorem C3_retry_exhaustion_error_witness :
    (send_packet_with_retry 1 (fun _ => .timeout)).err = .ERR_TIMEOUT
    ∧ (send_packet_with_retry 1 (fun _ => .timeout)).state = .SENDING := by
  have h := C3_retry_exhaustion_error 1 (fun _ => .timeout)
    (by omega) (by intro i h; simp at h)
  exact ⟨h.2.1, by simpa using h.2.2⟩

/-- The retry loop under a link whose completion callback always
reports failure, spelled out: every attempt fails, so starting at
`retry = k` with `m = k + d` there are `d + 1` further attempts and the
backoff delays are `10 * 2 ^ j` for `j = k+1, ..., k+d+1`. -/
theorem retry_loop_allfail (m : Nat) :
    ∀ d k st, m = k + d →
      retry_loop m (fun _ => .cbFail) k st =
        { err := .ERR_TIMEOUT, state := .FAILED, attempts := d + 1,
          delays := (List.range' (k + 1) (d + 1)).map (fun j => 10 * 2 ^ j) } := by
  intro d
  induction d with
  | zero =>
    intro k st hk
    subst hk
    rw [retry_loop]
    simp only [Nat.add_zero, le_refl, if_pos]
    rw [retry_loop]
    simp [List.range'_succ]
  | succ d ih =>
    intro k st hk
    rw [retry_loop]
    have hle : k ≤ m := by omega
    simp only [hle, if_pos]
    rw [ih (k + 1) .FAILED (by omega)]
    simp [List.range'_succ]

/-- Monotone exponential backoff schedule: the mapped delays over any
window of consecutive attempt counts are non-decreasing. -/
theorem chain_le_backoff : ∀ (n s : Nat),
    ((List.range' s n).map (fun j => 10 * 2 ^ j)).Chain' (· ≤ ·) := by
  intro n
  induction n with
  | zero => intro s; simp
  | succ n ih =>
    intro s
    cases n with
    | zero => simp
    | succ n =>
      rw [List.range'_succ, List.map_cons]
      rw [List.range'_succ, List.map_cons]
      refine List.chain'_cons.mpr ⟨?_, ?_⟩
      · have : (2 : Nat) ^ s ≤ 2 ^ (s + 1) :=
          Nat.pow_le_pow_right (by norm_num) (Nat.le_succ s)
        omega
      · have := ih (s + 1)
        rw [List.range'_succ, List.map_cons] at this
        exact this

/-- C4 counterexample: the claim says that with an always-failing link
a per-fragment send makes exactly `max_retries + 1` transmit attempts
before returning an error.  At the representable configuration
`max_retries = 255` the `uint8_t` retry counter wraps 255 to 0, the
loop guard `retry <= max_retries` never fails and the call never
returns: in the wrap-faithful model the call is still running after
260 loop iterations, although 255 + 2 iterations would suffice for 256
attempts plus the exit check. -/
theorem C4_counterexample :
    send_packet_with_retry_u8 255 (fun _ => .cbFail) 260 = none
    ∧ 255 + 2 < 260 := by
  constructor
  · rw [send_packet_with_retry_u8]
    exact retry_u8_loop_wrap_none (fun _ => .cbFail)
      (by intro i h; simp at h) 260 0 0 .SENDING (by omega)
  · omega

/-- C4 (amended): with a link layer that always reports completion
failure and a configured `max_retries ≤ 254`, a per-fragment send
makes exactly `max_retries + 1` transmit attempts — also in the
wrap-faithful `uint8_t` model — and returns `ESP_ERR_TIMEOUT` (at
`max_retries = 255` the `uint8_t` counter wraps and the call never
returns).  For `max_retries ≤ 26`, where the C backoff expression
`10 * (1 << retry)` stays within signed 32-bit `int` for every
post-increment counter value, the delay inserted after the n-th failed
attempt is `10 * 2 ^ n` milliseconds (the exponential schedule with
the just-incremented attempt count), so successive delays are
non-decreasing; beyond that bound the C expression overflows `int`
(undefined behaviour) and no delay schedule is asserted. -/
theorem C4_retry_backoff_schedule (max_retries : Nat) :
    (max_retries ≤ 254 →
      send_packet_with_retry_u8 max_retries (fun _ => .cbFail) (max_retries + 2) =
        some (send_packet_with_retry max_retries (fun _ => .cbFail))
      ∧ (send_packet_with_retry max_retries (fun _ => .cbFail)).err = .ERR_TIMEOUT
      ∧ (send_packet_with_retry max_retries (fun _ => .cbFail)).attempts = max_retries + 1)
    ∧ (max_retries ≤ 26 →
      (send_packet_with_retry max_retries (fun _ => .cbFail)).delays =
        (List.range' 1 (max_retries + 1)).map (fun j => 10 * 2 ^ j)
      ∧ (send_packet_with_retry max_retries (fun _ => .cbFail)).delays.Chain' (· ≤ ·)) := by
  have h := retry_loop_allfail max_retries max_retries 0 .SENDING (by omega)
  constructor
  · intro hm
    refine ⟨?_, ?_, ?_⟩
    · rw [send_packet_with_retry_u8, send_packet_with_retry]
      exact retry_u8_loop_agrees max_retries hm (fun _ => .cbFail) max_retries
        (max_retries + 2) 0 .SENDING (by omega) (by omega)
    · rw [send_packet_with_retry, h]
    · rw [send_packet_with_retry, h]
  · intro _
    rw [send_packet_with_retry, h]
    exact ⟨rfl, chain_le_backoff (max_retries + 1) 1⟩

/-- Witness for C4 (amended): at the default configuration
`max_retries = 3` the send makes 4 attempts and the four backoff
delays are non-decreasing. -/
theorem C4_retry_backoff_schedule_witness :
    (send_packet_with_retry 3 (fun _ => .cbFail)).attempts = 3 + 1
    ∧ (send_packet_with_retry 3 (fun _ => .cbFail)).delays.Chain' (· ≤ ·) :=
  ⟨((C4_retry_backoff_schedule 3).1 (by omega)).2.2,
   ((C4_retry_backoff_schedule 3).2 (by omega)).2⟩

/-! ## Driver facade state

The process-wide globals of `espnow_driver.c` gathered into one record:
`s_driver_initialized`, the copied configuration fields the claims
depend on (`node_id`, `max_retries`, `send_timeout_ms`), the static
sequence counter of `espnow_driver_send`, the send context
(`s_send_ctx.state`, `.is_sending`, `.total_chunks`), the two callback
registrations (`none` models a NULL pointer), the synchronization
primitive handles (modelled as present/absent), and `s_last_rssi`. -/
structure DriverState where
  inited : Bool
  node_id : Nat
  max_retries : Nat
  send_timeout_ms : Nat
  sequence_num : Nat
  send_state : SendState
  is_sending : Bool
  total_chunks : Nat
  recv_cb : Option Nat
  send_done_cb : Option Nat
  mutex_present : Bool
  event_group_present : Bool
  last_rssi : Int
deriving DecidableEq

/-- `espnow_driver_deinit` from the source: fails with
`ESP_ERR_INVALID_STATE` when the driver is not initialized; otherwise
tears down the link, deletes the mutex and event group and clears both
callback registrations. -/
def espnow_driver_deinit (st : DriverState) : EspErr × DriverState :=
  if st.inited = false then (.ERR_INVALID_STATE, st)
  else
    (.OK, { st with
      inited := false
      recv_cb := none
      send_done_cb := none
      mutex_present := false
      event_group_present := false })

/-- `espnow_driver_register_recv_cb` from the source: unconditionally
store the callback and return `ESP_OK`. -/
def espnow_driver_register_recv_cb (st : DriverState) (cb : Option Nat) :
    EspErr × DriverState :=
  (.OK, { st with recv_cb := cb })

/-- `espnow_driver_register_send_done_cb` from the source:
unconditionally store the callback and return `ESP_OK`. -/
def espnow_driver_register_send_done_cb (st : DriverState) (cb : Option Nat) :
    EspErr × DriverState :=
  (.OK, { st with send_done_cb := cb })

/-- `espnow_driver_get_send_state` from the source. -/
def espnow_driver_get_send_state (st : DriverState) : SendState :=
  st.send_state

/-- `espnow_driver_get_last_rssi` from the source. -/
def espnow_driver_get_last_rssi (st : DriverState) : Int :=
  st.last_rssi

/-- The chunk loop of `espnow_driver_send`: send each fragment in order
with `send_packet_with_retry`, stopping at the first failure; the
overall result is `ESP_OK` or the first failing error.  The environment
`outs` gives, per chunk index, the attempt outcomes seen by that
chunk's retry loop. -/
def send_chunks (max_retries : Nat) (outs : Nat → Nat → AttemptOutcome) :
    List Packet → Nat → EspErr
  | [], _ => .OK
  | _p :: rest, i =>
    let r := send_packet_with_retry max_retries (outs i)
    if r.err = .OK then send_chunks max_retries outs rest (i + 1) else r.err

/-- `espnow_driver_send` from the source.  `dest_ok` models
`dest_mac != NULL`; `mutex_ok` models whether the send mutex was
acquired within its 5-second bound.  The sequence counter is a
`uint16_t`, hence the wrap at 65536.  After the chunk loop the code
sets `is_sending = false` and the context state to `IDLE` on success
and `FAILED` otherwise (lines 443-444). -/
def espnow_driver_send (st : DriverState) (dest_ok : Bool) (data : List Nat)
    (mutex_ok : Bool) (outs : Nat → Nat → AttemptOutcome) : EspErr × DriverState :=
  if st.inited = false then (.ERR_INVALID_STATE, st)
  else if dest_ok = false ∨ data.length = 0 then (.ERR_INVALID_ARG, st)
  else if mutex_ok = false then (.ERR_TIMEOUT, st)
  else
    let seq := (st.sequence_num + 1) % 65536
    let frags := fragment_data st.node_id data seq
    if frags.length = 0 then (.ERR_INVALID_SIZE, { st with sequence_num := seq })
    else
      let result := send_chunks st.max_retries outs frags 0
      (result, { st with
        sequence_num := seq
        is_sending := false
        total_chunks := frags.length
        send_state := if result = .OK then .IDLE else .FAILED })

/-- `espnow_driver_broadcast` from the source: `espnow_driver_send` to
the (non-NULL) broadcast address. -/
def espnow_driver_broadcast (st : DriverState) (data : List Nat)
    (mutex_ok : Bool) (outs : Nat → Nat → AttemptOutcome) : EspErr × DriverState :=
  espnow_driver_send st true data mutex_ok outs

/-- C6 counterexample: the claim says `driver_deinit` always returns
Ok, including when the driver is already deinitialized.  On a
deinitialized driver the code returns `ESP_ERR_INVALID_STATE` (line
304-306), not Ok. -/
theorem C6_counterexample :
    (espnow_driver_deinit
      { inited := false, node_id := 1, max_retries := 3, send_timeout_ms := 100,
        sequence_num := 0, send_state := .IDLE, is_sending := false,
        total_chunks := 0, recv_cb := none, send_done_cb := none,
        mutex_present := false, event_group_present := false, last_rssi := 0 }).1 =
      .ERR_INVALID_STATE
    ∧ EspErr.ERR_INVALID_STATE ≠ EspErr.OK := by
  exact ⟨rfl, by decide⟩

/-- C6 (amended): `driver_deinit` returns Ok when the driver is
initialized, tearing down the link, releasing the synchronization
primitives and clearing the registered callbacks; when the driver is
already deinitialized it leaves the state unchanged but returns
`ESP_ERR_INVALID_STATE` rather than Ok. -/
theorem C6_deinit_behaviour (st : DriverState) :
    (st.inited = true →
      espnow_driver_deinit st =
        (.OK, { st with
          inited := false, recv_cb := none, send_done_cb := none,
          mutex_present := false, event_group_present := false }))
    ∧ (st.inited = false →
      espnow_driver_deinit st = (.ERR_INVALID_STATE, st)) := by
  constructor
  · intro h
    simp [espnow_driver_deinit, h]
  · intro h
    simp [espnow_driver_deinit, h]

/-- Witness for C6 (amended): both prongs at concrete states. -/
theorem C6_deinit_behaviour_witness :
    espnow_driver_deinit
      { inited := true, node_id := 1, max_retries := 3, send_timeout_ms := 100,
        sequence_num := 0, send_state := .IDLE, is_sending := false,
        total_chunks := 0, recv_cb := some 1, send_done_cb := some 2,
        mutex_present := true, event_group_present := true, last_rssi := 0 } =
      (.OK,
        { inited := false, node_id := 1, max_retries := 3, send_timeout_ms := 100,
          sequence_num := 0, send_state := .IDLE, is_sending := false,
          total_chunks := 0, recv_cb := none, send_done_cb := none,
          mutex_present := false, event_group_present := false, last_rssi := 0 }) := by
  exact (C6_deinit_behaviour _).1 rfl

/-- C10: both callback-registration operations unconditionally succeed
and install (or, for a null callback, clear) the registration, touching
nothing else in the driver state and performing no initialization
check; by contrast, `send` and `deinit` reject an uninitialized driver
with `ESP_ERR_INVALID_STATE`. -/
theorem C10_register_callbacks_unconditional (st : DriverState)
    (cb cb2 : Option Nat) (dest_ok mutex_ok : Bool) (data : List Nat)
    (outs : Nat → Nat → AttemptOutcome) :
    espnow_driver_register_recv_cb st cb = (.OK, { st with recv_cb := cb })
    ∧ espnow_driver_register_send_done_cb st cb2 = (.OK, { st with send_done_cb := cb2 })
    ∧ (st.inited = false →
        (espnow_driver_send st dest_ok data mutex_ok outs).1 = .ERR_INVALID_STATE
        ∧ (espnow_driver_deinit st).1 = .ERR_INVALID_STATE) := by
  refine ⟨rfl, rfl, fun h => ⟨?_, ?_⟩⟩
  · simp [espnow_driver_send, h]
  · simp [espnow_driver_deinit, h]

/-- Witness for C10: registration on a never-initialized driver
installs the callback and returns Ok, while `send` and `deinit` on the
same state are rejected. -/
theorem C10_register_callbacks_unconditional_witness :
    (espnow_driver_register_recv_cb
      { inited := false, node_id := 1, max_retries := 3, send_timeout_ms := 100,
        sequence_num := 0, send_state := .IDLE, is_sending := false,
        total_chunks := 0, recv_cb := none, send_done_cb := none,
        mutex_present := false, event_group_present := false, last_rssi := 0 }
      (some 5)).1 = .OK
    ∧ (espnow_driver_register_recv_cb
      { inited := false, node_id := 1, max_retries := 3, send_timeout_ms := 100,
        sequence_num := 0, send_state := .IDLE, is_sending := false,
        total_chunks := 0, recv_cb := none, send_done_cb := none,
        mutex_present := false, event_group_present := false, last_rssi := 0 }
      (some 5)).2.recv_cb = some 5
    ∧ (espnow_driver_send
      { inited := false, node_id := 1, max_retries := 3, send_timeout_ms := 100,
        sequence_num := 0, send_state := .IDLE, is_sending := false,
        total_chunks := 0, recv_cb := none, send_done_cb := none,
        mutex_present := false, event_group_present := false, last_rssi := 0 }
      true [1] true (fun _ _ => .cbSuccess)).1 = .ERR_INVALID_STATE := by
  have h := C10_register_callbacks_unconditional
    { inited := false, node_id := 1, max_retries := 3, send_timeout_ms := 100,
      sequence_num := 0, send_state := .IDLE, is_sending := false,
      total_chunks := 0, recv_cb := none, send_done_cb := none,
      mutex_present := false, event_group_present := false, last_rssi := 0 }
    (some 5) none true true [1] (fun _ _ => .cbSuccess)
  exact ⟨by rw [h.1], by rw [h.1], (h.2.2 rfl).1⟩

/-- C9: with the send mutex available, a send call that returns success
leaves the resting send state `IDLE` (not `SUCCESS`), a call that
returns the chunk-loop terminal error `ESP_ERR_TIMEOUT` leaves it
`FAILED`, and no completed call ever leaves `SUCCESS` as the resting
state (lines 443-444 overwrite the transient `SUCCESS` set by the send
callback). -/
theorem C9_resting_state_never_success (st : DriverState) (dest_ok : Bool)
    (data : List Nat) (outs : Nat → Nat → AttemptOutcome) :
    ((espnow_driver_send st dest_ok data true outs).1 = .OK →
      espnow_driver_get_send_state (espnow_driver_send st dest_ok data true outs).2 = .IDLE)
    ∧ ((espnow_driver_send st dest_ok data true outs).1 = .ERR_TIMEOUT →
      espnow_driver_get_send_state (espnow_driver_send st dest_ok data true outs).2 = .FAILED)
    ∧ (st.send_state ≠ .SUCCESS →
      espnow_driver_get_send_state (espnow_driver_send st dest_ok data true outs).2 ≠ .SUCCESS) := by
  unfold espnow_driver_send espnow_driver_get_send_state
  by_cases h1 : st.inited = false
  · simp [h1]
  · by_cases h2 : dest_ok = false ∨ data = []
    · simp [h1, h2]
    · by_cases h3 : fragment_data st.node_id data ((st.sequence_num + 1) % 65536) = []
      · simp [h1, h2, h3]
      · by_cases h4 :
          send_chunks st.max_retries outs
            (fragment_data st.node_id data ((st.sequence_num + 1) % 65536)) 0 = .OK
        · simp [h1, h2, h3, h4]
        · simp [h1, h2, h3, h4]

/-- Witness for C9: a one-chunk send over an immediately succeeding
link returns Ok and leaves the send state `IDLE`. -/
theorem C9_resting_state_never_success_witness :
    espnow_driver_get_send_state
      (espnow_driver_send
        { inited := true, node_id := 1, max_retries := 3, send_timeout_ms := 100,
          sequence_num := 0, send_state := .IDLE, is_sending := false,
          total_chunks := 0, recv_cb := none, send_done_cb := none,
          mutex_present := true, event_group_present := true, last_rssi := 0 }
        true [1] true (fun _ _ => .cbSuccess)).2 = .IDLE := by
  refine (C9_resting_state_never_success _ true [1] (fun _ _ => .cbSuccess)).1 ?_
  have hone : send_packet_with_retry 3 (fun _ => AttemptOutcome.cbSuccess) =
      { err := .OK, state := .SUCCESS, attempts := 1, delays := [] } := by
    rw [send_packet_with_retry, retry_loop]
    simp
  have hl : (fragment_data 1 [1] 1).length = 1 := by
    rw [fragment_data_length]
    norm_num [total_chunks_of, ESPNOW_MAX_PAYLOAD_SIZE]
  obtain ⟨p, hp⟩ := List.length_eq_one.mp hl
  simp [espnow_driver_send, hp, send_chunks, hone]

/-! ## `espnow_driver_wait_send_done`

The function polls the live globals `s_send_ctx.is_sending` and
`s_send_ctx.state`, which another task mutates concurrently; they are
modelled as functions of the poll index.  Each loop iteration delays
10 ms, so the elapsed time at poll `k` is `10 * k` ms. -/

/-- The polling loop of `espnow_driver_wait_send_done`, at poll index
`k`: if `is_sending` is still true and the elapsed time has reached the
timeout, return `ESP_ERR_TIMEOUT`; once `is_sending` is false, return
`ESP_OK` exactly when the state equals `ESPNOW_STATE_IDLE`, else
`ESP_FAIL`. -/
def wait_send_done_go (timeout_ms : Nat) (is_sending : Nat → Bool)
    (state : Nat → SendState) (k : Nat) : EspErr :=
  if is_sending k then
    if timeout_ms ≤ 10 * k then .ERR_TIMEOUT
    else wait_send_done_go timeout_ms is_sending state (k + 1)
  else if state k = .IDLE then .OK else .FAIL
termination_by timeout_ms - 10 * k
decreasing_by omega

/-- `espnow_driver_wait_send_done` from the source: start polling at
elapsed time 0. -/
def espnow_driver_wait_send_done (timeout_ms : Nat) (is_sending : Nat → Bool)
    (state : Nat → SendState) : EspErr :=
  wait_send_done_go timeout_ms is_sending state 0

/-- If the busy flag clears at poll `k + d` and every earlier poll saw
it set before the timeout, the loop exits by testing the state at that
poll against `IDLE`. -/
theorem wait_send_done_go_exit (timeout_ms : Nat) (is_sending : Nat → Bool)
    (state : Nat → SendState) :
    ∀ d k, is_sending (k + d) = false →
      (∀ m, k ≤ m → m < k + d → is_sending m = true ∧ 10 * m < timeout_ms) →
      wait_send_done_go timeout_ms is_sending state k =
        (if state (k + d) = .IDLE then .OK else .FAIL) := by
  intro d
  induction d with
  | zero =>
    intro k hfalse _
    rw [wait_send_done_go]
    simp only [Nat.add_zero] at hfalse
    simp [hfalse]
  | succ d ih =>
    intro k hfalse hall
    have hk := hall k (le_refl k) (by omega)
    rw [wait_send_done_go]
    rw [hk.1, if_pos rfl, if_neg (by omega)]
    have : k + (d + 1) = (k + 1) + d := by omega
    rw [this] at hfalse ⊢
    exact ih (k + 1) hfalse (fun m h1 h2 => hall m (by omega) (by omega))

/-- If the busy flag never clears, the loop terminates with
`ESP_ERR_TIMEOUT` once the elapsed time reaches the timeout. -/
theorem wait_send_done_go_timeout (timeout_ms : Nat) (is_sending : Nat → Bool)
    (state : Nat → SendState) (hs : ∀ m, is_sending m = true) :
    ∀ d k, timeout_ms - 10 * k ≤ d →
      wait_send_done_go timeout_ms is_sending state k = .ERR_TIMEOUT := by
  intro d
  induction d with
  | zero =>
    intro k hd
    rw [wait_send_done_go, hs k, if_pos rfl, if_pos (by omega)]
  | succ d ih =>
    intro k hd
    rw [wait_send_done_go, hs k, if_pos rfl]
    by_cases h : timeout_ms ≤ 10 * k
    · rw [if_pos h]
    · rw [if_neg h]
      exact ih (k + 1) (by omega)

/-- C5 counterexample: the claim says `wait_send_done` returns Ok if
and only if the final send state was `Success`.  With `is_sending`
already false and the state equal to `SUCCESS`, the code returns
`ESP_FAIL`, because line 490 tests the state against
`ESPNOW_STATE_IDLE`, not `ESPNOW_STATE_SUCCESS`. -/
theorem C5_counterexample :
    espnow_driver_wait_send_done 100 (fun _ => false) (fun _ => .SUCCESS) = .FAIL
    ∧ EspErr.FAIL ≠ EspErr.OK := by
  constructor
  · rw [espnow_driver_wait_send_done, wait_send_done_go]
    simp
  · decide

/-- C5 (amended): `wait_send_done(timeout)` polls `is_sending` every
10 ms until it is false or the timeout elapses; it returns
`ESP_ERR_TIMEOUT` if the timeout elapses while `is_sending` is still
true, and otherwise returns Ok if and only if the final send state was
`IDLE` (the resting state a successful send leaves behind), returning
`ESP_FAIL` for any other final state. -/
theorem C5_wait_send_done (timeout_ms : Nat) (is_sending : Nat → Bool)
    (state : Nat → SendState) :
    (∀ n, is_sending n = false →
      (∀ m, m < n → is_sending m = true ∧ 10 * m < timeout_ms) →
      espnow_driver_wait_send_done timeout_ms is_sending state =
        (if state n = .IDLE then .OK else .FAIL))
    ∧ ((∀ m, is_sending m = true) →
      espnow_driver_wait_send_done timeout_ms is_sending state = .ERR_TIMEOUT) := by
  constructor
  · intro n hfalse hall
    rw [espnow_driver_wait_send_done]
    have := wait_send_done_go_exit timeout_ms is_sending state n 0
      (by simpa using hfalse) (fun m h1 h2 => hall m (by omega))
    simpa using this
  · intro hs
    exact wait_send_done_go_timeout timeout_ms is_sending state hs timeout_ms 0 (by omega)

/-- Witness for C5 (amended): the busy flag clears at the third poll
(20 ms into a 100 ms timeout) with the state at `IDLE`, and the call
returns Ok. -/
theorem C5_wait_send_done_witness :
    espnow_driver_wait_send_done 100 (fun n => decide (n < 2)) (fun _ => .IDLE) = .OK := by
  have h := (C5_wait_send_done 100 (fun n => decide (n < 2)) (fun _ => .IDLE)).1 2
    (by decide) (by decide)
  simpa using h

/-! ## Wire format

`send_packet_with_retry` hands `esp_now_send` the first
`sizeof(espnow_packet_header_t) + payload_length` bytes of the packet
structure.  The header is `__attribute__((packed))` and the target is
little-endian, so its memory image is the nine bytes below; the
payload bytes follow immediately. -/

/-- The 9-byte little-endian memory image of the packed header. -/
def serialize_header (h : Header) : List Nat :=
  [h.node_id % 256,
   h.packet_sequence % 256, h.packet_sequence / 256 % 256,
   h.total_chunks % 256,
   h.chunk_index % 256,
   h.payload_length % 256, h.payload_length / 256 % 256,
   h.crc16 % 256, h.crc16 / 256 % 256]

/-- The bytes handed to the link layer for one packet:
`esp_now_send(dest, (const uint8_t *)packet, packet_size)` with
`packet_size = sizeof(espnow_packet_header_t) + payload_length`
(line 180), i.e. the first `9 + payload_length` bytes of the packet
image. -/
def packet_wire_bytes (p : Packet) : List Nat :=
  (serialize_header p.header ++ p.payload).take (9 + p.header.payload_length)

/-- C8: every frame handed to the link layer transmit primitive is
exactly the 9-byte packed header followed by exactly `payload_length`
payload bytes, so the wire frame is `9 + payload_length` bytes and the
payload never exceeds 200 bytes (in particular the frame is never
padded to the full 209-byte fixed packet buffer). -/
theorem C8_wire_frame (node_id : Nat) (data : List Nat) (s i : Nat)
    (hi : i < (fragment_data node_id data s).length) :
    packet_wire_bytes ((fragment_data node_id data s).getD i default) =
      serialize_header ((fragment_data node_id data s).getD i default).header
        ++ ((fragment_data node_id data s).getD i default).payload
    ∧ (packet_wire_bytes ((fragment_data node_id data s).getD i default)).length =
        9 + ((fragment_data node_id data s).getD i default).header.payload_length
    ∧ (serialize_header ((fragment_data node_id data s).getD i default).header).length = 9
    ∧ ((fragment_data node_id data s).getD i default).header.payload_length ≤ 200 := by
  rw [fragment_data_length] at hi
  have h32 : ¬ 32 < total_chunks_of data.length := by
    by_contra h
    rw [if_pos h] at hi
    omega
  rw [if_neg h32] at hi
  rw [fragment_data_getD node_id data s i h32 hi]
  have hplen :
      ((data.drop (i * 200)).take
        (if data.length < i * 200 + 200 then data.length - i * 200 else 200)).length =
      (if data.length < i * 200 + 200 then data.length - i * 200 else 200) := by
    rw [List.length_take, List.length_drop]
    split <;> omega
  have hcs : (if data.length < i * 200 + 200 then data.length - i * 200 else 200) ≤ 200 := by
    split <;> omega
  refine ⟨?_, ?_, rfl, hcs⟩
  · rw [packet_wire_bytes]
    apply List.take_of_length_le
    rw [List.length_append, hplen]
    simp [serialize_header]
  · rw [packet_wire_bytes, List.length_take, List.length_append, hplen]
    simp [serialize_header]

/-- Witness for C8: the single fragment of a 1-byte buffer. -/
theorem C8_wire_frame_witness :
    0 < (fragment_data 1 [1] 1).length
    ∧ (packet_wire_bytes ((fragment_data 1 [1] 1).getD 0 default)).length =
        9 + ((fragment_data 1 [1] 1).getD 0 default).header.payload_length :=
  ⟨by decide, (C8_wire_frame 1 [1] 1 0 (by decide)).2.1⟩

/-! ## Receive path (`espnow_recv_cb`) -/

/-- The header fields as read by casting the received byte buffer to
`espnow_packet_t` on the little-endian target. -/
def parse_header (data : List Nat) : Header :=
  { node_id := data.getD 0 0
    packet_sequence := data.getD 1 0 + 256 * data.getD 2 0
    total_chunks := data.getD 3 0
    chunk_index := data.getD 4 0
    payload_length := data.getD 5 0 + 256 * data.getD 6 0
    crc16 := data.getD 7 0 + 256 * data.getD 8 0 }

/-- `espnow_recv_cb` from the source.  `info_ok` models
`recv_info != NULL && data != NULL`; `rssi` is the radio metadata
reading `recv_info->rx_ctrl->rssi`.  Returns the updated driver state
and, when the registered receive callback is invoked, the arguments it
receives (payload slice, length, RSSI).  The RSSI global is written
before the checksum is validated; a checksum mismatch drops the frame
silently. -/
def espnow_recv_cb (st : DriverState) (info_ok : Bool) (data : List Nat)
    (rssi : Int) : DriverState × Option (List Nat × Nat × Int) :=
  if info_ok = false ∨ data.length < 9 then (st, none)
  else
    let st1 := { st with last_rssi := rssi }
    let h := parse_header data
    let pl := (data.drop 9).take h.payload_length
    if espnow_crc16 pl ≠ h.crc16 then (st1, none)
    else
      match st1.recv_cb with
      | some _ => (st1, some (pl, h.payload_length, rssi))
      | none => (st1, none)

/-- C7: for every inbound datagram at least as long as the header whose
recomputed checksum over the first `payload_length` payload bytes
differs from the checksum field, the receive handler drops the frame
without invoking the registered receive callback, yet the last-RSSI
global is still updated to that frame's reading (the RSSI is recorded
before checksum validation). -/
theorem C7_corrupted_frame_rssi (st : DriverState) (data : List Nat) (rssi : Int)
    (h9 : 9 ≤ data.length)
    (hcrc : espnow_crc16 ((data.drop 9).take (parse_header data).payload_length) ≠
      (parse_header data).crc16) :
    espnow_recv_cb st true data rssi = ({ st with last_rssi := rssi }, none)
    ∧ espnow_driver_get_last_rssi (espnow_recv_cb st true data rssi).1 = rssi := by
  have hmain : espnow_recv_cb st true data rssi = ({ st with last_rssi := rssi }, none) := by
    rw [espnow_recv_cb, if_neg (by simp; omega)]
    simp only [if_pos hcrc]
  exact ⟨hmain, by rw [hmain]; rfl⟩

/-- Witness for C7: a 10-byte frame declaring a 1-byte payload `[42]`
whose checksum field `0xFFFF` does not match the recomputed CRC; the
callback (registered as `some 1`) is not invoked and the RSSI global
becomes the frame reading -40. -/
theorem C7_corrupted_frame_rssi_witness :
    espnow_recv_cb
      { inited := true, node_id := 1, max_retries := 3, send_timeout_ms := 100,
        sequence_num := 0, send_state := .IDLE, is_sending := false,
        total_chunks := 0, recv_cb := some 1, send_done_cb := none,
        mutex_present := true, event_group_present := true, last_rssi := 0 }
      true [1, 0, 0, 1, 0, 1, 0, 255, 255, 42] (-40) =
      ({ inited := true, node_id := 1, max_retries := 3, send_timeout_ms := 100,
         sequence_num := 0, send_state := .IDLE, is_sending := false,
         total_chunks := 0, recv_cb := some 1, send_done_cb := none,
         mutex_present := true, event_group_present := true, last_rssi := -40 },
       none) :=
  (C7_corrupted_frame_rssi _ [1, 0, 0, 1, 0, 1, 0, 255, 255, 42] (-40)
    (by decide) (by decide)).1

/-! ## Round-trip of fragmentation -/

/-- The chunk sliced at offset `i * 200` is the same whether one takes
the computed chunk size or the full 200-byte bound: past the end of the
buffer both captures stop at the end. -/
theorem take_chunk_eq (data : List Nat) (off : Nat) :
    (data.drop off).take (if data.length < off + 200 then data.length - off else 200) =
      (data.drop off).take 200 := by
  split
  · rename_i h
    rw [List.take_of_length_le (by rw [List.length_drop]),
      List.take_of_length_le (by rw [List.length_drop]; omega)]
  · rfl

/-- Concatenating the consecutive 200-byte slices of a buffer
reproduces its prefix. -/
theorem flatten_chunks (data : List Nat) :
    ∀ n, ((List.range n).map (fun i => (data.drop (i * 200)).take 200)).flatten =
      data.take (n * 200) := by
  intro n
  induction n with
  | zero => simp
  | succ n ih =>
    rw [List.range_succ, List.map_append, List.flatten_append, ih]
    simp only [List.map_cons, List.map_nil, List.flatten_cons, List.flatten_nil,
      List.append_nil]
    rw [← List.take_add]
    congr 1
    ring

/-- The transmitted payload slices of the fragments, in list order, are
exactly the consecutive 200-byte slices of the buffer. -/
theorem fragment_payloads (node_id : Nat) (data : List Nat) (s : Nat)
    (h32 : ¬ 32 < total_chunks_of data.length) :
    (fragment_data node_id data s).map (fun p => p.payload.take p.header.payload_length) =
      (List.range (total_chunks_of data.length)).map
        (fun i => (data.drop (i * 200)).take 200) := by
  rw [fragment_data]
  rw [if_neg h32, List.map_map]
  refine List.map_congr_left ?_
  intro i _
  simp only [Function.comp, ESPNOW_MAX_PAYLOAD_SIZE]
  rw [List.take_take, Nat.min_self]
  exact take_chunk_eq data (i * 200)

/-- C2: for every buffer of length 1..6400 and every sequence number,
fragmenting and then concatenating the first `payload_length` payload
bytes of each fragment in `chunk_index` order (which is list order)
reproduces the original buffer exactly; every fragment carries at most
200 payload bytes, and the fragment at position `i` is stamped
`chunk_index = i`. -/
theorem C2_fragment_round_trip (node_id s : Nat) (data : List Nat)
    (h1 : 1 ≤ data.length) (h2 : data.length ≤ 6400) :
    ((fragment_data node_id data s).map
        (fun p => p.payload.take p.header.payload_length)).flatten = data
    ∧ (∀ p ∈ fragment_data node_id data s, p.payload.length ≤ 200)
    ∧ (∀ i, i < (fragment_data node_id data s).length →
        ((fragment_data node_id data s).getD i default).header.chunk_index = i) := by
  have hA : data.length + 200 - 1 ≤ 6599 := by omega
  have hB : (data.length + 200 - 1) / 200 ≤ 6599 / 200 := Nat.div_le_div_right hA
  have hC : (6599 : Nat) / 200 = 32 := by norm_num
  have htc : total_chunks_of data.length = (data.length + 200 - 1) / 200 := by
    rw [total_chunks_of]
    simp only [ESPNOW_MAX_PAYLOAD_SIZE]
    exact Nat.mod_eq_of_lt (by omega)
  have h32 : ¬ 32 < total_chunks_of data.length := by rw [htc]; omega
  have hcover : data.length ≤ total_chunks_of data.length * 200 := by
    rw [htc]
    have hdm := Nat.div_add_mod (data.length + 200 - 1) 200
    have hmlt : (data.length + 200 - 1) % 200 < 200 :=
      Nat.mod_lt _ (by norm_num)
    omega
  refine ⟨?_, ?_, ?_⟩
  · rw [fragment_payloads node_id data s h32, flatten_chunks data]
    exact List.take_of_length_le hcover
  · intro p hp
    rw [fragment_data, if_neg h32] at hp
    obtain ⟨i, _, rfl⟩ := List.mem_map.mp hp
    simp only [List.length_take, List.length_drop, ESPNOW_MAX_PAYLOAD_SIZE]
    split <;> omega
  · intro i hi
    rw [fragment_data_length, if_neg h32] at hi
    rw [fragment_data_getD node_id data s i h32 hi]

/-- Witness for C2: a 3-byte buffer round-trips through fragmentation. -/
theorem C2_fragment_round_trip_witness :
    1 ≤ ([1, 2, 3] : List Nat).length
    ∧ ((fragment_data 2 [1, 2, 3] 7).map
        (fun p => p.payload.take p.header.payload_length)).flatten = [1, 2, 3] :=
  ⟨by decide, (C2_fragment_round_trip 2 7 [1, 2, 3] (by decide) (by decide)).1⟩

end Espnow
